import Mathlib

/-!
# Verification of the vtuber_dashboard channel route

Shallow embedding of `src/app/api/youtube/channel/route.ts` (the current
revision: the paginated reader, the discovery fetcher and the GET/POST
handlers) together with the relevant behaviour of its storage collaborator,
and proofs of the specification claims about it.

Conventions:
* TypeScript `number | null` / optional fields become `Option` values.
* The external search/details endpoints are modelled by an interaction
  trace: a list of HTTP results for the successive search calls and a
  function from the requested id batch to the details call's result.
* The storage layer (Supabase) is modelled as two keyed row lists; the
  declarative query built in `fetchChannelsFromSupabase` is given the
  semantics the spec ascribes to the storage collaborator (range filter,
  partial-match exclusion, ordering, offset/limit window, exact count).
-/

namespace VtuberDashboard

/-! ## Constants (route.ts lines 42-49) -/

def MAX_RESULTS : Nat := 100
def PAGE_SIZE : Nat := 30
def CHUNK_SIZE : Nat := 50
def MAX_ALLOWED_SUBSCRIBERS : Nat := 10000

/-- The exclusion substring used in the `.not("channels.title", "ilike", ...)`
storage filter (route.ts line 124). -/
def EXCLUDE_PATTERN : String := "切り抜き"

/-! ## Strings: substring containment (models SQL `ilike '%pat%'` and
JS `String.prototype.includes`).  Strings are handled at the character-list
level; case folding is per-character. -/

def lowerChars (s : String) : List Char := s.data.map Char.toLower

/-- `strContains s pat` holds when `pat` occurs as a contiguous substring
of `s`. -/
def strContains (s pat : String) : Bool :=
  s.data.tails.any (fun t => pat.data.isPrefixOf t)

/-- Case-insensitive containment of the exclusion pattern in a title,
modelling the storage layer's `ilike '%切り抜き%'` match. -/
def titleMatchesExclusion (t : String) : Bool :=
  (lowerChars t).tails.any (fun s => (lowerChars EXCLUDE_PATTERN).isPrefixOf s)

/-! ## Persisted rows and the store -/

/-- A row of the `channels` table (identity projection). -/
structure ChannelsTableRow where
  id : String
  title : String
  custom_url : Option String
  thumbnail_url : Option String
  country : Option String
  etag : Option String
deriving DecidableEq, Repr

/-- A row of the `channel_stats` table (statistics projection). -/
structure ChannelStatsTableRow where
  channel_id : String
  subscriber_count : Option Int
  view_count : Option Int
  video_count : Option Int
deriving DecidableEq, Repr

/-- The storage layer's state: the two related projections.  The lists model
unordered keyed relations. -/
structure Store where
  channels : List ChannelsTableRow
  channel_stats : List ChannelStatsTableRow
deriving DecidableEq, Repr

/-- The shape of one row returned by the reader's select (the TS type
`ChannelStatsRow`, route.ts lines 5-17): statistics columns plus the joined
`channels` record (nullable in the TS type, hence `Option`).  `channel_id`
is the ordering key of the underlying `channel_stats` row
(`.order("channel_id")`). -/
structure ChannelStatsRow where
  channel_id : String
  subscriber_count : Option Int
  view_count : Option Int
  video_count : Option Int
  channels : Option ChannelsTableRow
deriving DecidableEq, Repr

/-- The API-facing channel item (the TS type `Channel`, route.ts
lines 19-28). -/
structure Channel where
  id : String
  title : String
  channelUrl : Option String
  customUrl : Option String
  thumbnailUrl : Option String
  subscriberCount : Option Int
  viewCount : Option Int
  videoCount : Option Int
deriving DecidableEq, Repr

/-! ## buildChannelUrl (route.ts lines 66-78) -/

/-- Case-insensitive test for the `/^https?:\/\//i` regex. -/
def startsWithHttp (s : String) : Bool :=
  "http://".data.isPrefixOf (lowerChars s)
  || "https://".data.isPrefixOf (lowerChars s)

def buildChannelUrl (channel : Option ChannelsTableRow) : Option String :=
  match channel with
  | none => none
  | some c =>
    match c.custom_url with
    | some u =>
      if u.length > 0 then
        if startsWithHttp u then some u
        else if "@".data.isPrefixOf u.data then
          some ("https://www.youtube.com/" ++ u)
        else some ("https://www.youtube.com/c/" ++ u)
      else if c.id ≠ "" then some ("https://www.youtube.com/channel/" ++ c.id)
      else none
    | none =>
      if c.id ≠ "" then some ("https://www.youtube.com/channel/" ++ c.id)
      else none

/-! ## The reader: `fetchChannelsFromSupabase` (route.ts lines 96-151)

The declarative Supabase query (lines 105-126) is split into its storage-side
semantics (`storageQuery`: inner join, range filter on `subscriber_count`,
title exclusion, order by `channel_id`, offset window, exact count) and the
application-side row mapping (`mapRows`, lines 132-148). -/

/-- Inner join `channel_stats` with `channels` on `channel_id = channels.id`
(`channels:channels!inner(...)`): stats rows without a matching channel row
are dropped. -/
def joinRows (store : Store) : List ChannelStatsRow :=
  store.channel_stats.filterMap (fun sr =>
    match store.channels.find? (fun c => c.id = sr.channel_id) with
    | some c => some ⟨sr.channel_id, sr.subscriber_count, sr.view_count,
                      sr.video_count, some c⟩
    | none => none)

/-- The row-level filter of the query: `.gte("subscriber_count", min)`,
`.lte("subscriber_count", max)` (SQL comparisons with NULL are not true, so
rows without a recorded subscriber count are excluded) and
`.not("channels.title", "ilike", "%切り抜き%")` on the joined title. -/
def rowMatchesQuery (minS maxS : Int) (r : ChannelStatsRow) : Bool :=
  (match r.subscriber_count with
   | none => false
   | some s => decide (minS ≤ s) && decide (s ≤ maxS))
  && !(match r.channels with
       | some c => titleMatchesExclusion c.title
       | none => false)

/-- `.order("channel_id", { ascending: true })`. -/
def orderRows (rows : List ChannelStatsRow) : List ChannelStatsRow :=
  rows.insertionSort (fun a b => a.channel_id ≤ b.channel_id)

/-- Storage-side semantics of the reader's query: the filtered, ordered rows
windowed by `.range(offset, offset + pageSize - 1)`, and the
`count: "exact"` total of all rows matching the filters (not just the
page). -/
def storageQuery (store : Store) (minS maxS : Int) (page pageSize : Nat) :
    List ChannelStatsRow × Nat :=
  let offset := (page - 1) * pageSize
  let filtered := (joinRows store).filter (rowMatchesQuery minS maxS)
  (((orderRows filtered).drop offset).take pageSize, filtered.length)

/-- The application-side mapping of one returned row (route.ts lines
133-147): rows whose joined channel is missing or has a falsy id are
dropped; the rest are mapped field by field.  There is no further filtering
here. -/
def mapRow (row : ChannelStatsRow) : Option Channel :=
  match row.channels with
  | none => none
  | some channel =>
    if channel.id = "" then none
    else some
      { id := channel.id
        title := channel.title
        channelUrl := buildChannelUrl (some channel)
        customUrl := channel.custom_url
        thumbnailUrl := channel.thumbnail_url
        subscriberCount := row.subscriber_count
        viewCount := row.view_count
        videoCount := row.video_count }

/-- `.map(...).filter(item => item !== null)` (route.ts lines 132-148). -/
def mapRows (data : List ChannelStatsRow) : List Channel :=
  data.filterMap mapRow

/-- The reader (route.ts lines 96-151): run the query, map the rows, return
the items and the exact count (`count ?? items.length`; the count is always
present in this model since the query requests `count: "exact"`). -/
def fetchChannelsFromSupabase (store : Store) (minS maxS : Int)
    (page pageSize : Nat) : List Channel × Nat :=
  let q := storageQuery store minS maxS page pageSize
  (mapRows q.1, q.2)

/-! ## The discovery fetcher: `fetchYouTubeChannels` (route.ts lines 153-242)

The external HTTP world is modelled by an interaction trace: the list of
results of the successive search calls, and a function giving the result of
the (single, batched) details call issued for a page's candidate ids. -/

/-- Result of an external HTTP call: either the parsed JSON payload or a
non-success status with the response body text. -/
inductive HttpResult (α : Type) where
  | ok (value : α)
  | err (status : Nat) (body : String)
deriving DecidableEq, Repr

/-- One item of a search response; `item?.id?.channelId` may be absent. -/
structure SearchItem where
  channelId : Option String
deriving DecidableEq, Repr

/-- A search response: `searchData.items ?? []` and the optional
`nextPageToken`. -/
structure SearchResponse where
  items : List SearchItem
  nextPageToken : Option String
deriving DecidableEq, Repr

/-- Abstraction of a JSON statistics value as seen through JS numeric
coercion: absent (`null`/`undefined`), a value whose `Number(...)` is not
finite, or a value coercing to the finite number `n`. -/
inductive StatValue where
  | missing
  | nonNumeric
  | num (n : Int)
deriving DecidableEq, Repr

/-- `item.statistics ?? {}` (an absent statistics object is all-missing with
the hidden flag false). -/
structure Statistics where
  hiddenSubscriberCount : Bool
  subscriberCount : StatValue
  viewCount : StatValue
  videoCount : StatValue
deriving DecidableEq, Repr

/-- `item.snippet ?? {}` with the three thumbnail variants. -/
structure Snippet where
  title : Option String
  customUrl : Option String
  thumbHigh : Option String
  thumbMedium : Option String
  thumbDefault : Option String
  country : Option String
deriving DecidableEq, Repr

/-- One item of a details response (`detailData.items ?? []`); `item?.id`
may be absent. -/
structure DetailItem where
  id : Option String
  snippet : Snippet
  statistics : Statistics
  etag : Option String
deriving DecidableEq, Repr

/-- The fetcher's output record (the TS type `YouTubeChannel`, route.ts
lines 30-40). -/
structure YouTubeChannel where
  id : String
  title : String
  customUrl : Option String
  thumbnailUrl : Option String
  country : Option String
  subscriberCount : Option Int
  viewCount : Option Int
  videoCount : Option Int
  etag : Option String
deriving DecidableEq, Repr

/-- `numberOrUndefined` (route.ts lines 51-55): `null`/`undefined` map to
`undefined`; anything else is numerically coerced and kept only when
finite. -/
def numberOrUndefined (value : StatValue) : Option Int :=
  match value with
  | .missing => none
  | .nonNumeric => none
  | .num n => some n

/-- Building the record stored in `detailMap` for an item with id `cid`
(route.ts lines 208-228): a hidden subscriber count maps to an absent
value; the three thumbnail variants are tried high → medium → default. -/
def mapDetailItem (cid : String) (item : DetailItem) : YouTubeChannel :=
  { id := cid
    title := item.snippet.title.getD cid
    customUrl := item.snippet.customUrl
    thumbnailUrl :=
      match item.snippet.thumbHigh with
      | some u => some u
      | none =>
        match item.snippet.thumbMedium with
        | some u => some u
        | none => item.snippet.thumbDefault
    country := item.snippet.country
    subscriberCount :=
      if item.statistics.hiddenSubscriberCount then none
      else numberOrUndefined item.statistics.subscriberCount
    viewCount := numberOrUndefined item.statistics.viewCount
    videoCount := numberOrUndefined item.statistics.videoCount
    etag := item.etag }

/-- Lookup in the per-page `detailMap` (route.ts lines 204-229): the map is
keyed by item id with later `set`s overwriting earlier ones, so a get
returns the record built from the LAST response item carrying that id;
items without an id are skipped. -/
def detailLookup (items : List DetailItem) (cid : String) :
    Option YouTubeChannel :=
  match items.reverse.find? (fun it => it.id = some cid) with
  | some it => some (mapDetailItem cid it)
  | none => none

/-- The candidate-collection loop over one page's search items (route.ts
lines 177-184): skip items without an id or already seen, record new ids in
the seen set, and stop once `remaining` new candidates were collected.
`acc` holds the candidates collected so far in reverse. -/
def collectCandidatesAux :
    List SearchItem → List String → List String → Nat →
    List String × List String
  | [], seen, acc, _ => (acc.reverse, seen)
  | item :: rest, seen, acc, remaining =>
    match item.channelId with
    | none => collectCandidatesAux rest seen acc remaining
    | some cid =>
      if seen.contains cid then collectCandidatesAux rest seen acc remaining
      else
        let acc' := cid :: acc
        let seen' := cid :: seen
        if remaining ≤ acc'.length then (acc'.reverse, seen')
        else collectCandidatesAux rest seen' acc' remaining

def collectCandidates (items : List SearchItem) (seen : List String)
    (remaining : Nat) : List String × List String :=
  collectCandidatesAux items seen [] remaining

/-- The append loop over the page's candidates (route.ts lines 231-235):
for each candidate id in search order, push the detail record when the
details lookup has it, silently skip it otherwise. -/
def appendFound (items : List DetailItem) (candidateIds : List String) :
    List YouTubeChannel :=
  candidateIds.foldl
    (fun acc cid =>
      match detailLookup items cid with
      | none => acc
      | some channel => acc ++ [channel])
    []

/-- The sequence of external call results a discovery run consumes: the
successive search responses, and the outcome of the batched details call as
a function of the id batch requested. -/
structure FetchEnv where
  searchPages : List (HttpResult SearchResponse)
  details : List String → HttpResult (List DetailItem)

/-- The pagination loop of `fetchYouTubeChannels` (route.ts lines 158-239).
The loop runs while `collected.length < MAX_RESULTS`; each iteration
consumes the next search result from the trace (an exhausted trace models
the external interaction ending and returns what was collected).  A
non-success search or details response aborts with the thrown error message
`"YouTube ... API error: <status> <body>"`; a page with no new candidates
either follows `nextPageToken` or terminates; otherwise the page's found
candidates are appended and the cursor advanced. -/
def fetchLoop (details : List String → HttpResult (List DetailItem)) :
    List (HttpResult SearchResponse) → List YouTubeChannel → List String →
    Except String (List YouTubeChannel)
  | [], collected, _ => .ok collected
  | page :: rest, collected, seen =>
    if MAX_RESULTS ≤ collected.length then .ok collected
    else
      match page with
      | .err status body =>
        .error ("YouTube search API error: " ++ toString status ++ " " ++ body)
      | .ok sr =>
        let remaining := MAX_RESULTS - collected.length
        let cs := collectCandidates sr.items seen remaining
        if cs.1.isEmpty then
          match sr.nextPageToken with
          | none => .ok collected
          | some _ => fetchLoop details rest collected cs.2
        else
          match details cs.1 with
          | .err status body =>
            .error ("YouTube channels API error: " ++ toString status ++ " "
                    ++ body)
          | .ok items =>
            let collected' := collected ++ appendFound items cs.1
            match sr.nextPageToken with
            | none => .ok collected'
            | some _ => fetchLoop details rest collected' cs.2

/-- `fetchYouTubeChannels` (route.ts lines 153-242): run the loop from an
empty accumulator and seen set, and return the accumulator truncated to
`MAX_RESULTS` (`collected.slice(0, MAX_RESULTS)`). -/
def fetchYouTubeChannels (env : FetchEnv) :
    Except String (List YouTubeChannel) :=
  (fetchLoop env.details env.searchPages [] []).map
    (fun collected => collected.take MAX_RESULTS)

/-! ## Query-parameter parsing (route.ts lines 80-94)

A raw query-string value is abstracted by how JS `Number(...)` coerces it:
absent, blank after trimming, coercing to a non-finite value, or coercing
to a finite number whose `Math.floor` is `n` (negative inputs floor to a
negative `n`). -/

inductive ParamInput where
  | absent
  | blank
  | nonNumeric
  | numeric (n : Int)
deriving DecidableEq, Repr

/-- `parseBound` (route.ts lines 80-87): absent/blank falls back; a
non-finite or negative value throws `"Invalid numeric parameter"`; a finite
non-negative value is floored. -/
def parseBound (value : ParamInput) (fallback : Nat) : Except String Nat :=
  match value with
  | .absent => .ok fallback
  | .blank => .ok fallback
  | .nonNumeric => .error "Invalid numeric parameter"
  | .numeric n =>
    if n < 0 then .error "Invalid numeric parameter" else .ok n.toNat

/-- `parsePage` (route.ts lines 89-94): absent/blank, non-finite or `< 1`
all yield page 1; otherwise the value is floored. -/
def parsePage (value : ParamInput) : Nat :=
  match value with
  | .absent => 1
  | .blank => 1
  | .nonNumeric => 1
  | .numeric n => if n < 1 then 1 else n.toNat

/-! ## Responses and environments -/

/-- An HTTP response from the route: `NextResponse.json({error}, {status})`
or the success payload (`refreshed` present only on POST). -/
inductive ApiResponse where
  | err (status : Nat) (message : String)
  | okJson (refreshed : Option Nat) (items : List Channel) (page : Nat)
      (pageSize : Nat) (total : Nat)
deriving DecidableEq, Repr

/-- Whether a response is a client (400) validation rejection. -/
def isClientError : ApiResponse → Bool
  | .err 400 _ => true
  | _ => false

/-- The HTTP status of a response (success responses are 200). -/
def responseStatus : ApiResponse → Nat
  | .err s _ => s
  | .okJson _ _ _ _ _ => 200

/-- The parameter-validation stage shared verbatim by GET and POST
(route.ts lines 250-274 and 305-329, identical code): `none` when the
request is rejected with a 400, otherwise the accepted
`(minSubscribers, maxSubscribers)` pair after the ceiling clamp. -/
def validateBounds (minInput maxInput : ParamInput) : Option (Nat × Nat) :=
  match parseBound minInput 0 with
  | .error _ => none
  | .ok minSubscribers =>
    match parseBound maxInput MAX_ALLOWED_SUBSCRIBERS with
    | .error _ => none
    | .ok maxSubscribers0 =>
      if MAX_ALLOWED_SUBSCRIBERS < minSubscribers then none
      else
        let maxSubscribers :=
          if MAX_ALLOWED_SUBSCRIBERS < maxSubscribers0 then
            MAX_ALLOWED_SUBSCRIBERS
          else maxSubscribers0
        if maxSubscribers < minSubscribers then none
        else some (minSubscribers, maxSubscribers)

def minCeilingMessage : String :=
  "minSubscribers must be less than or equal to 10000"

def minMaxMessage : String :=
  "minSubscribers must be less than or equal to maxSubscribers"

/-! ## The sync stage (route.ts lines 350-376) -/

/-- The identity-projection rows built from the fetched channels (route.ts
lines 350-357). -/
def channelRows (channels : List YouTubeChannel) : List ChannelsTableRow :=
  channels.map (fun channel =>
    { id := channel.id
      title := channel.title
      custom_url := channel.customUrl
      thumbnail_url := channel.thumbnailUrl
      country := channel.country
      etag := channel.etag })

/-- The statistics-projection rows built from the fetched channels
(route.ts lines 359-364). -/
def statsRows (channels : List YouTubeChannel) : List ChannelStatsTableRow :=
  channels.map (fun channel =>
    { channel_id := channel.id
      subscriber_count := channel.subscriberCount
      view_count := channel.viewCount
      video_count := channel.videoCount })

/-- Upsert with `onConflict: "id"`: per row, last write wins on the key. -/
def upsertChannels (table : List ChannelsTableRow)
    (rows : List ChannelsTableRow) : List ChannelsTableRow :=
  rows.foldl (fun t r => t.filter (fun x => x.id ≠ r.id) ++ [r]) table

/-- Upsert with `onConflict: "channel_id"`: per row, last write wins on the
key. -/
def upsertStats (table : List ChannelStatsTableRow)
    (rows : List ChannelStatsTableRow) : List ChannelStatsTableRow :=
  rows.foldl (fun t r => t.filter (fun x => x.channel_id ≠ r.channel_id) ++ [r])
    table

/-! ## The GET handler (route.ts lines 244-297) -/

/-- Environment of a GET request: whether Supabase credentials are
configured, the store's contents, and whether the read query fails (the
storage layer may return an error, route.ts line 128). -/
structure GetEnv where
  supabaseConfigured : Bool
  readError : Option String
  store : Store

/-- The GET handler: parse `page` and the bounds, reject `minSubscribers`
above the ceiling, clamp `maxSubscribers` to the ceiling, reject
`minSubscribers > maxSubscribers`, require Supabase configuration, then
read and return `{items, page, pageSize, total}`; a reader throw is caught
and returned as a 500. -/
def GET (env : GetEnv) (minInput maxInput pageInput : ParamInput) :
    ApiResponse :=
  let page := parsePage pageInput
  match parseBound minInput 0 with
  | .error m => .err 400 m
  | .ok minSubscribers =>
    match parseBound maxInput MAX_ALLOWED_SUBSCRIBERS with
    | .error m => .err 400 m
    | .ok maxSubscribers0 =>
      if MAX_ALLOWED_SUBSCRIBERS < minSubscribers then
        .err 400 minCeilingMessage
      else
        let maxSubscribers :=
          if MAX_ALLOWED_SUBSCRIBERS < maxSubscribers0 then
            MAX_ALLOWED_SUBSCRIBERS
          else maxSubscribers0
        if maxSubscribers < minSubscribers then .err 400 minMaxMessage
        else if !env.supabaseConfigured then
          .err 500 "Server is not configured with Supabase credentials"
        else
          match env.readError with
          | some m => .err 500 m
          | none =>
            let (items, total) :=
              fetchChannelsFromSupabase env.store (minSubscribers : Int)
                (maxSubscribers : Int) page PAGE_SIZE
            .okJson none items page PAGE_SIZE total

/-! ## The POST handler (route.ts lines 299-396) -/

/-- Environment of a POST request: credential presence, the external
interaction trace, the storage layer's outcome for each upsert and for the
final read, and the store's initial contents. -/
structure PostEnv where
  youtubeApiKeyPresent : Bool
  supabaseConfigured : Bool
  fetchEnv : FetchEnv
  channelsUpsertError : Option String
  statsUpsertError : Option String
  readError : Option String
  store : Store

/-- The POST handler, returning the response together with the store's
final contents (to make the write behaviour observable).  Validation and
configuration checks mirror GET; then, inside one try/catch whose catch
returns a 500 with the thrown message: fetch, upsert the identity rows
(skipped when empty; a storage error throws, leaving the statistics upsert
unexecuted), upsert the statistics rows (likewise), re-read, and answer
`{refreshed, items, page, pageSize, total}`. -/
def POST (env : PostEnv) (minInput maxInput pageInput : ParamInput) :
    ApiResponse × Store :=
  let page := parsePage pageInput
  match parseBound minInput 0 with
  | .error m => (.err 400 m, env.store)
  | .ok minSubscribers =>
    match parseBound maxInput MAX_ALLOWED_SUBSCRIBERS with
    | .error m => (.err 400 m, env.store)
    | .ok maxSubscribers0 =>
      if MAX_ALLOWED_SUBSCRIBERS < minSubscribers then
        (.err 400 minCeilingMessage, env.store)
      else
        let maxSubscribers :=
          if MAX_ALLOWED_SUBSCRIBERS < maxSubscribers0 then
            MAX_ALLOWED_SUBSCRIBERS
          else maxSubscribers0
        if maxSubscribers < minSubscribers then
          (.err 400 minMaxMessage, env.store)
        else if !env.youtubeApiKeyPresent then
          (.err 500 "Server is not configured with YOUTUBE_API_KEY",
           env.store)
        else if !env.supabaseConfigured then
          (.err 500 "Server is not configured with Supabase credentials",
           env.store)
        else
          match fetchYouTubeChannels env.fetchEnv with
          | .error m => (.err 500 m, env.store)
          | .ok channels =>
            let chRows := channelRows channels
            let stRows := statsRows channels
            if chRows ≠ [] ∧ env.channelsUpsertError.isSome then
              (.err 500 (env.channelsUpsertError.getD ""), env.store)
            else
              let store1 :=
                if chRows ≠ [] then
                  { env.store with
                      channels := upsertChannels env.store.channels chRows }
                else env.store
              if stRows ≠ [] ∧ env.statsUpsertError.isSome then
                (.err 500 (env.statsUpsertError.getD ""), store1)
              else
                let store2 :=
                  if stRows ≠ [] then
                    { store1 with
                        channel_stats :=
                          upsertStats store1.channel_stats stRows }
                  else store1
                match env.readError with
                | some m => (.err 500 m, store2)
                | none =>
                  let (items, total) :=
                    fetchChannelsFromSupabase store2 (minSubscribers : Int)
                      (maxSubscribers : Int) page PAGE_SIZE
                  (.okJson (some channels.length) items page PAGE_SIZE total,
                   store2)

/-! ## Helper lemmas -/

/-- The append loop is the `filterMap` of the details lookup over the
candidate ids. -/
theorem appendFound_go (d : List DetailItem) :
    ∀ (cids : List String) (acc : List YouTubeChannel),
      cids.foldl
          (fun acc cid =>
            match detailLookup d cid with
            | none => acc
            | some channel => acc ++ [channel]) acc
        = acc ++ cids.filterMap (detailLookup d)
  | [], acc => by simp
  | cid :: cids, acc => by
    cases h : detailLookup d cid with
    | none =>
      simp only [List.foldl_cons, h, List.filterMap_cons, appendFound_go d cids acc]
    | some ch =>
      simp only [List.foldl_cons, h, List.filterMap_cons,
        appendFound_go d cids (acc ++ [ch]), List.append_assoc,
        List.singleton_append]

theorem appendFound_eq (d : List DetailItem) (cids : List String) :
    appendFound d cids = cids.filterMap (detailLookup d) := by
  simpa [appendFound] using appendFound_go d cids []

/-- A record found in the details map under key `cid` carries id `cid`. -/
theorem detailLookup_id (d : List DetailItem) (cid : String)
    (ch : YouTubeChannel) (h : detailLookup d cid = some ch) : ch.id = cid := by
  unfold detailLookup at h
  cases hf : d.reverse.find? (fun it => it.id = some cid) with
  | none => rw [hf] at h; exact absurd h (by simp)
  | some it =>
    rw [hf] at h
    injection h with h'
    rw [← h']
    rfl

/-- The ids of the appended records are exactly the candidate ids present
in the details lookup, in candidate order. -/
theorem appendFound_ids (d : List DetailItem) (cids : List String) :
    (appendFound d cids).map YouTubeChannel.id
      = cids.filter (fun cid => (detailLookup d cid).isSome) := by
  rw [appendFound_eq]
  induction cids with
  | nil => simp
  | cons c cs ih =>
    cases h : detailLookup d c with
    | none => simp [List.filterMap_cons, List.filter_cons, h, ih]
    | some ch =>
      simp [List.filterMap_cons, List.filter_cons, h, ih,
        detailLookup_id d c ch h]

/-- A row of the reader's query page belongs to the join and satisfies the
query filter. -/
theorem window_mem_filtered (store : Store) (minS maxS : Int)
    (page pageSize : Nat) (r : ChannelStatsRow)
    (h : r ∈ (storageQuery store minS maxS page pageSize).1) :
    r ∈ joinRows store ∧ rowMatchesQuery minS maxS r = true := by
  unfold storageQuery at h
  dsimp only at h
  have hsub : (((orderRows ((joinRows store).filter
      (rowMatchesQuery minS maxS))).drop ((page - 1) * pageSize)).take
        pageSize).Sublist
      (orderRows ((joinRows store).filter (rowMatchesQuery minS maxS))) :=
    (List.take_sublist _ _).trans (List.drop_sublist _ _)
  have h1 : r ∈ orderRows ((joinRows store).filter
      (rowMatchesQuery minS maxS)) := hsub.subset h
  have h2 : r ∈ (joinRows store).filter (rowMatchesQuery minS maxS) :=
    (List.perm_insertionSort _ _).mem_iff.mp h1
  exact ⟨(List.mem_filter.mp h2).1, (List.mem_filter.mp h2).2⟩

/-- Decomposition of a successful row mapping. -/
theorem mapRow_eq_some (r : ChannelStatsRow) (c : Channel)
    (h : mapRow r = some c) :
    ∃ channel, r.channels = some channel ∧ ¬(channel.id = "")
      ∧ c.id = channel.id ∧ c.title = channel.title
      ∧ c.subscriberCount = r.subscriber_count := by
  unfold mapRow at h
  cases hch : r.channels with
  | none => rw [hch] at h; exact absurd h (by simp)
  | some channel =>
    rw [hch] at h
    dsimp only at h
    by_cases hid : channel.id = ""
    · rw [if_pos hid] at h; exact absurd h (by simp)
    · rw [if_neg hid] at h
      injection h with h'
      exact ⟨channel, rfl, hid, by rw [← h'], by rw [← h'], by rw [← h']⟩

/-- Decomposition of the query filter: an in-range recorded subscriber
count, and a joined title not matching the exclusion pattern. -/
theorem rowMatchesQuery_spec (minS maxS : Int) (r : ChannelStatsRow)
    (h : rowMatchesQuery minS maxS r = true) :
    (∃ s, r.subscriber_count = some s ∧ minS ≤ s ∧ s ≤ maxS)
    ∧ (∀ channel, r.channels = some channel →
        titleMatchesExclusion channel.title = false) := by
  unfold rowMatchesQuery at h
  rw [Bool.and_eq_true] at h
  obtain ⟨h1, h2⟩ := h
  constructor
  · cases hs : r.subscriber_count with
    | none => rw [hs] at h1; simp at h1
    | some s =>
      rw [hs] at h1
      rw [Bool.and_eq_true] at h1
      exact ⟨s, rfl, by simpa using h1.1, by simpa using h1.2⟩
  · intro channel hch
    rw [hch] at h2
    simpa using h2

/-! ## Claims -/

/-- C6: on each discovery page, the records appended to the accumulator are
exactly the page's candidates that are present in the details lookup, taken
in the original candidate order from the search response; a candidate
absent from the details batch is silently dropped, with no error and no
retry. -/
theorem page_append_order_and_silent_drop (d : List DetailItem)
    (cids : List String) :
    appendFound d cids = cids.filterMap (detailLookup d)
    ∧ (appendFound d cids).map YouTubeChannel.id
        = cids.filter (fun cid => (detailLookup d cid).isSome) :=
  ⟨appendFound_eq d cids, appendFound_ids d cids⟩

/-- C9: a details item whose subscriber count is marked hidden maps to an
absent `subscriberCount` (never zero), and any statistic whose external
value is missing or non-numeric maps to an absent field rather than
zero. -/
theorem mapped_statistics_absent_never_zero (cid : String)
    (item : DetailItem) :
    (item.statistics.hiddenSubscriberCount = true →
      (mapDetailItem cid item).subscriberCount = none)
    ∧ ((item.statistics.subscriberCount = .missing ∨
          item.statistics.subscriberCount = .nonNumeric) →
       (mapDetailItem cid item).subscriberCount = none)
    ∧ ((item.statistics.viewCount = .missing ∨
          item.statistics.viewCount = .nonNumeric) →
       (mapDetailItem cid item).viewCount = none)
    ∧ ((item.statistics.videoCount = .missing ∨
          item.statistics.videoCount = .nonNumeric) →
       (mapDetailItem cid item).videoCount = none) := by
  refine ⟨fun h => ?_, fun h => ?_, fun h => ?_, fun h => ?_⟩
  · simp [mapDetailItem, h]
  · rcases h with h | h <;>
      cases hs : item.statistics.hiddenSubscriberCount <;>
      simp [mapDetailItem, numberOrUndefined, h, hs]
  · rcases h with h | h <;> simp [mapDetailItem, numberOrUndefined, h]
  · rcases h with h | h <;> simp [mapDetailItem, numberOrUndefined, h]

/-- A concrete details item: hidden subscriber count, missing view count,
non-numeric video count. -/
def statItemW : DetailItem :=
  { id := some "c"
    snippet := ⟨none, none, none, none, none, none⟩
    statistics := ⟨true, .missing, .missing, .nonNumeric⟩
    etag := none }

theorem mapped_statistics_absent_never_zero_witness :
    (mapDetailItem "c" statItemW).subscriberCount = none
    ∧ (mapDetailItem "c" statItemW).viewCount = none
    ∧ (mapDetailItem "c" statItemW).videoCount = none :=
  ⟨(mapped_statistics_absent_never_zero "c" statItemW).1 rfl,
   (mapped_statistics_absent_never_zero "c" statItemW).2.2.1 (Or.inl rfl),
   (mapped_statistics_absent_never_zero "c" statItemW).2.2.2 (Or.inr rfl)⟩

/-- C8: a request whose parsed `minSubscribers` exceeds the ceiling is
rejected with a client validation error by both endpoints, whatever the
`maxSubscribers` parameter is. -/
theorem min_above_ceiling_always_rejected (genv : GetEnv) (penv : PostEnv)
    (mn : Int) (maxInput pageInput : ParamInput)
    (h : (MAX_ALLOWED_SUBSCRIBERS : Int) < mn) :
    isClientError (GET genv (.numeric mn) maxInput pageInput) = true
    ∧ isClientError (POST penv (.numeric mn) maxInput pageInput).1 = true := by
  have hge : ¬(mn < 0) := by
    simp only [MAX_ALLOWED_SUBSCRIBERS] at h; omega
  have hpmin : parseBound (.numeric mn) 0 = .ok mn.toNat := by
    simp [parseBound, hge]
  have hlt : MAX_ALLOWED_SUBSCRIBERS < mn.toNat := by
    simp only [MAX_ALLOWED_SUBSCRIBERS] at h ⊢; omega
  constructor
  · simp only [GET, hpmin]
    cases hp : parseBound maxInput MAX_ALLOWED_SUBSCRIBERS with
    | error m => simp [isClientError]
    | ok mx0 => simp [hlt, isClientError]
  · simp only [POST, hpmin]
    cases hp : parseBound maxInput MAX_ALLOWED_SUBSCRIBERS with
    | error m => simp [isClientError]
    | ok mx0 => simp [hlt, isClientError]

/-- A GET environment with Supabase configured, no read failure and an
empty store. -/
def getEnv0 : GetEnv := ⟨true, none, ⟨[], []⟩⟩

/-- A POST environment with all credentials, an immediately-exhausted
external source, no storage failures and an empty store. -/
def postEnv0 : PostEnv :=
  ⟨true, true, ⟨[], fun _ => .ok []⟩, none, none, none, ⟨[], []⟩⟩

theorem min_above_ceiling_always_rejected_witness :
    isClientError (GET getEnv0 (.numeric 20000) .absent .absent) = true
    ∧ isClientError (POST postEnv0 (.numeric 20000) .absent .absent).1
        = true :=
  min_above_ceiling_always_rejected getEnv0 postEnv0 20000 .absent .absent
    (by decide)

/-- C7: a request whose parsed `maxSubscribers` exceeds the ceiling is not
rejected for that reason: on both endpoints the value is silently replaced
by the ceiling (the request behaves exactly like one that asked for the
ceiling) and processing continues with no client-error rejection. -/
theorem max_above_ceiling_clamped (genv : GetEnv) (penv : PostEnv)
    (minInput pageInput : ParamInput) (mn : Nat) (n : Int)
    (hmin : parseBound minInput 0 = .ok mn)
    (hmn : mn ≤ MAX_ALLOWED_SUBSCRIBERS)
    (hn : (MAX_ALLOWED_SUBSCRIBERS : Int) < n) :
    GET genv minInput (.numeric n) pageInput
      = GET genv minInput (.numeric (MAX_ALLOWED_SUBSCRIBERS : Int)) pageInput
    ∧ isClientError (GET genv minInput (.numeric n) pageInput) = false
    ∧ POST penv minInput (.numeric n) pageInput
      = POST penv minInput (.numeric (MAX_ALLOWED_SUBSCRIBERS : Int))
          pageInput
    ∧ isClientError (POST penv minInput (.numeric n) pageInput).1 = false := by
  have hge : ¬(n < 0) := by simp only [MAX_ALLOWED_SUBSCRIBERS] at hn; omega
  have hp1 : parseBound (.numeric n) MAX_ALLOWED_SUBSCRIBERS = .ok n.toNat := by
    simp [parseBound, hge]
  have hp2 : parseBound (.numeric (MAX_ALLOWED_SUBSCRIBERS : Int))
      MAX_ALLOWED_SUBSCRIBERS = .ok MAX_ALLOWED_SUBSCRIBERS := by
    simp [parseBound, MAX_ALLOWED_SUBSCRIBERS]
  have hclamp : (if MAX_ALLOWED_SUBSCRIBERS < n.toNat then
      MAX_ALLOWED_SUBSCRIBERS else n.toNat) = MAX_ALLOWED_SUBSCRIBERS := by
    have : MAX_ALLOWED_SUBSCRIBERS < n.toNat := by
      simp only [MAX_ALLOWED_SUBSCRIBERS] at hn ⊢; omega
    simp [this]
  have hclamp2 : (if MAX_ALLOWED_SUBSCRIBERS < MAX_ALLOWED_SUBSCRIBERS then
      MAX_ALLOWED_SUBSCRIBERS else MAX_ALLOWED_SUBSCRIBERS)
      = MAX_ALLOWED_SUBSCRIBERS := by simp
  have hc1 : ¬(MAX_ALLOWED_SUBSCRIBERS < mn) := by omega
  refine ⟨?_, ?_, ?_, ?_⟩
  · simp only [GET, hmin, hp1, hp2, hclamp, hclamp2]
  · simp only [GET, hmin, hp1, hclamp, if_neg hc1]
    cases hsb : genv.supabaseConfigured with
    | false => simp [isClientError]
    | true =>
      rw [if_neg (by simp)]
      cases genv.readError <;> simp [isClientError]
  · simp only [POST, hmin, hp1, hp2, hclamp, hclamp2]
  · simp only [POST, hmin, hp1, hclamp, if_neg hc1]
    cases hk : penv.youtubeApiKeyPresent with
    | false => simp [isClientError]
    | true =>
      rw [if_neg (by simp)]
      cases hsb : penv.supabaseConfigured with
      | false => simp [isClientError]
      | true =>
        rw [if_neg (by simp)]
        cases hf : fetchYouTubeChannels penv.fetchEnv with
        | error m => simp [isClientError]
        | ok chs =>
          dsimp only
          by_cases h1 : channelRows chs ≠ [] ∧
              penv.channelsUpsertError.isSome = true
          · rw [if_pos h1]; simp [isClientError]
          · rw [if_neg h1]
            by_cases h2 : statsRows chs ≠ [] ∧
                penv.statsUpsertError.isSome = true
            · rw [if_pos h2]; simp [isClientError]
            · rw [if_neg h2]
              cases penv.readError <;> simp [isClientError]

theorem max_above_ceiling_clamped_witness :
    GET getEnv0 (.numeric 5) (.numeric 20000) .absent
      = GET getEnv0 (.numeric 5) (.numeric (MAX_ALLOWED_SUBSCRIBERS : Int))
          .absent
    ∧ isClientError (GET getEnv0 (.numeric 5) (.numeric 20000) .absent)
        = false
    ∧ POST postEnv0 (.numeric 5) (.numeric 20000) .absent
      = POST postEnv0 (.numeric 5) (.numeric (MAX_ALLOWED_SUBSCRIBERS : Int))
          .absent
    ∧ isClientError (POST postEnv0 (.numeric 5) (.numeric 20000) .absent).1
        = false :=
  max_above_ceiling_clamped getEnv0 postEnv0 (.numeric 5) .absent 5 20000
    rfl (by decide) (by decide)

/-- A stats row, joined to a channel whose title contains the exclusion
substring, as the storage layer would hand it back if its filter did not
remove it. -/
def bypassRow : ChannelStatsRow :=
  { channel_id := "UC1"
    subscriber_count := some 100
    view_count := none
    video_count := none
    channels := some ⟨"UC1", "ほげ切り抜きチャンネル", none, none, none, none⟩ }

/-- The item the application-side mapping produces from `bypassRow`. -/
def bypassChannel : Channel :=
  { id := "UC1"
    title := "ほげ切り抜きチャンネル"
    channelUrl := some "https://www.youtube.com/channel/UC1"
    customUrl := none
    thumbnailUrl := none
    subscriberCount := some 100
    viewCount := none
    videoCount := none }

/-- C1 counterexample: the application-side mapping of the current reader
performs no title re-check — a returned row whose joined title contains the
exclusion substring is mapped and kept in the items, so a matching record
is NOT independently excluded by application code when the storage-layer
filter does not remove it. -/
theorem reader_app_recheck_missing_cex :
    titleMatchesExclusion bypassChannel.title = true
    ∧ mapRows [bypassRow] = [bypassChannel] := by
  constructor
  · decide
  · rfl

/-- C1 amended: on every read, title exclusion is enforced by the
storage-layer query alone — no item of the reader's result has a title
matching the exclusion pattern when the storage filter applies — but the
application code does not re-check it: the row mapping passes a matching
record through unchanged. -/
theorem reader_exclusion_storage_layer_only (store : Store)
    (minS maxS : Int) (page pageSize : Nat) :
    (∀ c ∈ (fetchChannelsFromSupabase store minS maxS page pageSize).1,
        titleMatchesExclusion c.title = false)
    ∧ mapRows [bypassRow] = [bypassChannel] := by
  constructor
  · intro c hc
    have hc' : c ∈ mapRows (storageQuery store minS maxS page pageSize).1 := hc
    obtain ⟨r, hr, hmap⟩ := List.mem_filterMap.mp hc'
    obtain ⟨hjoin, hq⟩ :=
      window_mem_filtered store minS maxS page pageSize r hr
    obtain ⟨channel, hch, -, -, htitle, -⟩ := mapRow_eq_some r c hmap
    rw [htitle]
    exact (rowMatchesQuery_spec minS maxS r hq).2 channel hch
  · rfl

instance : IsTotal ChannelStatsRow
    (fun a b => a.channel_id ≤ b.channel_id) :=
  ⟨fun a b => le_total a.channel_id b.channel_id⟩

instance : IsTrans ChannelStatsRow
    (fun a b => a.channel_id ≤ b.channel_id) :=
  ⟨fun _ _ _ h1 h2 => le_trans h1 h2⟩

/-- A row produced by the inner join carries the channel row found under
its own `channel_id`, so the joined channel's id equals the ordering
key. -/
theorem joinRows_consistent (store : Store) (r : ChannelStatsRow)
    (h : r ∈ joinRows store) (ch : ChannelsTableRow)
    (hch : r.channels = some ch) : ch.id = r.channel_id := by
  unfold joinRows at h
  obtain ⟨sr, _, hmk⟩ := List.mem_filterMap.mp h
  cases hf : store.channels.find? (fun c => c.id = sr.channel_id) with
  | none => rw [hf] at hmk; simp at hmk
  | some c =>
    rw [hf] at hmk
    injection hmk with hmk
    subst hmk
    injection hch with hch
    subst hch
    simpa using List.find?_some hf

/-- C4: for every valid request the reader returns only items with a
recorded subscriber count inside the inclusive `[minSubscribers,
maxSubscribers]` range, ordered by identifier, sliced to the window
`[(page-1)*pageSize, page*pageSize)` over the ordered filtered rows, with
at most `pageSize` items, and a total equal to the count of ALL rows
matching the filter (not the page length and not the unfiltered total). -/
theorem reader_range_order_window_total (store : Store) (minS maxS : Int)
    (page pageSize : Nat) (_hmin : 0 ≤ minS) (_hle : minS ≤ maxS)
    (_hmax : maxS ≤ (MAX_ALLOWED_SUBSCRIBERS : Int)) (_hpage : 1 ≤ page) :
    (∀ c ∈ (fetchChannelsFromSupabase store minS maxS page pageSize).1,
        ∃ s, c.subscriberCount = some s ∧ minS ≤ s ∧ s ≤ maxS)
    ∧ (fetchChannelsFromSupabase store minS maxS page pageSize).1.Pairwise
        (fun a b => a.id ≤ b.id)
    ∧ (fetchChannelsFromSupabase store minS maxS page pageSize).1.length
        ≤ pageSize
    ∧ (fetchChannelsFromSupabase store minS maxS page pageSize).2
        = (joinRows store).countP (rowMatchesQuery minS maxS)
    ∧ (fetchChannelsFromSupabase store minS maxS page pageSize).1
        = mapRows (((orderRows ((joinRows store).filter
            (rowMatchesQuery minS maxS))).drop ((page - 1) * pageSize)).take
              pageSize) := by
  refine ⟨?_, ?_, ?_, ?_, rfl⟩
  · intro c hc
    have hc' : c ∈ mapRows (storageQuery store minS maxS page pageSize).1 := hc
    obtain ⟨r, hr, hmap⟩ := List.mem_filterMap.mp hc'
    obtain ⟨-, hq⟩ := window_mem_filtered store minS maxS page pageSize r hr
    obtain ⟨channel, hch, hid, hcid, htitle, hsub⟩ := mapRow_eq_some r c hmap
    obtain ⟨⟨s, hs, h1, h2⟩, -⟩ := rowMatchesQuery_spec minS maxS r hq
    exact ⟨s, by rw [hsub, hs], h1, h2⟩
  · have hsorted : (orderRows ((joinRows store).filter
        (rowMatchesQuery minS maxS))).Pairwise
          (fun a b => a.channel_id ≤ b.channel_id) :=
      List.sorted_insertionSort _ _
    have hsub : ((((orderRows ((joinRows store).filter
        (rowMatchesQuery minS maxS))).drop ((page - 1) * pageSize)).take
          pageSize)).Sublist
        (orderRows ((joinRows store).filter (rowMatchesQuery minS maxS))) :=
      (List.take_sublist _ _).trans (List.drop_sublist _ _)
    have hp := hsorted.sublist hsub
    have hp2 : (((orderRows ((joinRows store).filter
        (rowMatchesQuery minS maxS))).drop ((page - 1) * pageSize)).take
          pageSize).Pairwise
        (fun a b => ∀ c ∈ mapRow a, ∀ d ∈ mapRow b, c.id ≤ d.id) := by
      refine hp.imp_of_mem ?_
      intro a b ha hb hab c hc d hd
      rw [Option.mem_def] at hc hd
      obtain ⟨cha, hcha, -, hcid, -, -⟩ := mapRow_eq_some a c hc
      obtain ⟨chb, hchb, -, hdid, -, -⟩ := mapRow_eq_some b d hd
      have haj := (window_mem_filtered store minS maxS page pageSize a ha).1
      have hbj := (window_mem_filtered store minS maxS page pageSize b hb).1
      rw [hcid, joinRows_consistent store a haj cha hcha,
          hdid, joinRows_consistent store b hbj chb hchb]
      exact hab
    exact List.pairwise_filterMap.mpr hp2
  · have h1 : (mapRows (((orderRows ((joinRows store).filter
        (rowMatchesQuery minS maxS))).drop ((page - 1) * pageSize)).take
          pageSize)).length
        ≤ (((orderRows ((joinRows store).filter
            (rowMatchesQuery minS maxS))).drop ((page - 1) * pageSize)).take
              pageSize).length := List.length_filterMap_le _ _
    have h2 : (((orderRows ((joinRows store).filter
        (rowMatchesQuery minS maxS))).drop ((page - 1) * pageSize)).take
          pageSize).length ≤ pageSize := by
      rw [List.length_take]; exact min_le_left _ _
    exact le_trans h1 h2
  · exact (List.countP_eq_length_filter _ _).symm


/-- Three stored channels with subscriber counts 100, 1000 and 5000 (the
spec's end-to-end read scenario). -/
def demoStore : Store :=
  { channels :=
      [⟨"UCa", "Alpha", none, none, none, none⟩,
       ⟨"UCb", "Beta", none, none, none, none⟩,
       ⟨"UCc", "Gamma", none, none, none, none⟩]
    channel_stats :=
      [⟨"UCa", some 100, none, none⟩,
       ⟨"UCb", some 1000, none, none⟩,
       ⟨"UCc", some 5000, none, none⟩] }

theorem reader_range_order_window_total_witness :
    (fetchChannelsFromSupabase demoStore 500 2000 1 30).1.length ≤ 30
    ∧ (fetchChannelsFromSupabase demoStore 500 2000 1 30).2
        = (joinRows demoStore).countP (rowMatchesQuery 500 2000)
    ∧ (fetchChannelsFromSupabase demoStore 500 2000 1 30).2 = 1 :=
  ⟨(reader_range_order_window_total demoStore 500 2000 1 30 (by decide)
      (by decide) (by decide) (by decide)).2.2.1,
   (reader_range_order_window_total demoStore 500 2000 1 30 (by decide)
      (by decide) (by decide) (by decide)).2.2.2.1,
   by decide⟩

/-- Invariants of the candidate-collection loop: the collected candidates
are distinct, every collected candidate and every previously-seen id is in
the final seen set, and a collected candidate is either from the initial
accumulator or was not previously seen. -/
theorem collectCandidatesAux_spec :
    ∀ (items : List SearchItem) (seen acc : List String) (remaining : Nat),
      acc.Nodup → (∀ x ∈ acc, x ∈ seen) →
      (collectCandidatesAux items seen acc remaining).1.Nodup
      ∧ (∀ x ∈ (collectCandidatesAux items seen acc remaining).1,
          x ∈ (collectCandidatesAux items seen acc remaining).2)
      ∧ (∀ x ∈ seen, x ∈ (collectCandidatesAux items seen acc remaining).2)
      ∧ (∀ x ∈ (collectCandidatesAux items seen acc remaining).1,
          x ∈ acc ∨ x ∉ seen)
  | [], seen, acc, remaining, hnd, hsub => by
    simp only [collectCandidatesAux]
    refine ⟨List.nodup_reverse.mpr hnd, ?_, fun x hx => hx, ?_⟩
    · intro x hx; exact hsub x (List.mem_reverse.mp hx)
    · intro x hx; exact Or.inl (List.mem_reverse.mp hx)
  | item :: rest, seen, acc, remaining, hnd, hsub => by
    simp only [collectCandidatesAux]
    cases hcid : item.channelId with
    | none => exact collectCandidatesAux_spec rest seen acc remaining hnd hsub
    | some cid =>
      dsimp only
      by_cases hseen : seen.contains cid = true
      · rw [if_pos hseen]
        exact collectCandidatesAux_spec rest seen acc remaining hnd hsub
      · rw [if_neg hseen]
        have hcs : cid ∉ seen := by
          intro hmem; exact hseen (by simpa using hmem)
        have hca : cid ∉ acc := fun hmem => hcs (hsub cid hmem)
        by_cases hrem : remaining ≤ (cid :: acc).length
        · rw [if_pos hrem]
          refine ⟨?_, ?_, ?_, ?_⟩
          · exact List.nodup_reverse.mpr (List.nodup_cons.mpr ⟨hca, hnd⟩)
          · intro x hx
            rcases List.mem_cons.mp (List.mem_reverse.mp hx) with rfl | hx'
            · exact List.mem_cons_self _ _
            · exact List.mem_cons_of_mem _ (hsub x hx')
          · intro x hx; exact List.mem_cons_of_mem _ hx
          · intro x hx
            rcases List.mem_cons.mp (List.mem_reverse.mp hx) with rfl | hx'
            · exact Or.inr hcs
            · exact Or.inl hx'
        · rw [if_neg hrem]
          have h1 : (cid :: acc).Nodup := List.nodup_cons.mpr ⟨hca, hnd⟩
          have h2 : ∀ x ∈ cid :: acc, x ∈ cid :: seen := by
            intro x hx
            rcases List.mem_cons.mp hx with rfl | hx'
            · exact List.mem_cons_self _ _
            · exact List.mem_cons_of_mem _ (hsub x hx')
          obtain ⟨i1, i2, i3, i4⟩ :=
            collectCandidatesAux_spec rest (cid :: seen) (cid :: acc)
              remaining h1 h2
          refine ⟨i1, i2, ?_, ?_⟩
          · intro x hx; exact i3 x (List.mem_cons_of_mem _ hx)
          · intro x hx
            rcases i4 x hx with hx' | hx'
            · rcases List.mem_cons.mp hx' with rfl | hx''
              · exact Or.inr hcs
              · exact Or.inl hx''
            · exact Or.inr (fun hmem => hx' (List.mem_cons_of_mem _ hmem))

/-- `collectCandidates` from an empty accumulator: distinct candidates,
all recorded as seen, none previously seen. -/
theorem collectCandidates_spec (items : List SearchItem) (seen : List String)
    (remaining : Nat) :
    (collectCandidates items seen remaining).1.Nodup
    ∧ (∀ x ∈ (collectCandidates items seen remaining).1,
        x ∈ (collectCandidates items seen remaining).2)
    ∧ (∀ x ∈ seen, x ∈ (collectCandidates items seen remaining).2)
    ∧ (∀ x ∈ (collectCandidates items seen remaining).1, x ∉ seen) := by
  have h := collectCandidatesAux_spec items seen [] remaining (by simp)
    (by simp)
  exact ⟨h.1, h.2.1, h.2.2.1,
    fun x hx => (h.2.2.2 x hx).resolve_left (by simp)⟩


/-- The pagination loop preserves distinctness of collected ids: if every
collected id is in the seen set and the collected ids are distinct, any
successful outcome has distinct ids. -/
theorem fetchLoop_nodup
    (details : List String → HttpResult (List DetailItem)) :
    ∀ (pages : List (HttpResult SearchResponse))
      (collected : List YouTubeChannel) (seen : List String)
      (out : List YouTubeChannel),
      fetchLoop details pages collected seen = .ok out →
      (∀ c ∈ collected, c.id ∈ seen) →
      (collected.map YouTubeChannel.id).Nodup →
      (out.map YouTubeChannel.id).Nodup
  | [], collected, seen, out, h, hsub, hnd => by
    simp only [fetchLoop] at h
    injection h with h
    subst h
    exact hnd
  | page :: rest, collected, seen, out, h, hsub, hnd => by
    simp only [fetchLoop] at h
    by_cases hlen : MAX_RESULTS ≤ collected.length
    · rw [if_pos hlen] at h
      injection h with h
      subst h
      exact hnd
    · rw [if_neg hlen] at h
      cases page with
      | err s b => exact absurd h (by simp)
      | ok sr =>
        dsimp only at h
        by_cases hemp : (collectCandidates sr.items seen
            (MAX_RESULTS - collected.length)).1.isEmpty = true
        · rw [if_pos hemp] at h
          cases htok : sr.nextPageToken with
          | none =>
            rw [htok] at h
            injection h with h
            subst h
            exact hnd
          | some t =>
            rw [htok] at h
            refine fetchLoop_nodup details rest collected _ out h ?_ hnd
            intro c hc
            exact (collectCandidates_spec sr.items seen
              (MAX_RESULTS - collected.length)).2.2.1 _ (hsub c hc)
        · rw [if_neg hemp] at h
          cases hd : details (collectCandidates sr.items seen
              (MAX_RESULTS - collected.length)).1 with
          | err s b => rw [hd] at h; exact absurd h (by simp)
          | ok items =>
            rw [hd] at h
            dsimp only at h
            have hspec := collectCandidates_spec sr.items seen
              (MAX_RESULTS - collected.length)
            have hids := appendFound_ids items (collectCandidates sr.items
              seen (MAX_RESULTS - collected.length)).1
            have happ_sub : ∀ c ∈ appendFound items (collectCandidates
                sr.items seen (MAX_RESULTS - collected.length)).1,
                c.id ∈ (collectCandidates sr.items seen
                  (MAX_RESULTS - collected.length)).1 := by
              intro c hc
              have hm : c.id ∈ (appendFound items (collectCandidates sr.items
                  seen (MAX_RESULTS - collected.length)).1).map
                    YouTubeChannel.id := List.mem_map_of_mem _ hc
              rw [hids] at hm
              exact (List.mem_filter.mp hm).1
            have hnd' : ((collected ++ appendFound items (collectCandidates
                sr.items seen (MAX_RESULTS - collected.length)).1).map
                  YouTubeChannel.id).Nodup := by
              rw [List.map_append, List.nodup_append]
              refine ⟨hnd, ?_, ?_⟩
              · rw [hids]
                exact List.Nodup.filter _ hspec.1
              · intro x hx1 hx2
                obtain ⟨c, hc, rfl⟩ := List.mem_map.mp hx1
                rw [hids] at hx2
                exact hspec.2.2.2 _ (List.mem_filter.mp hx2).1 (hsub c hc)
            have hsub' : ∀ c ∈ collected ++ appendFound items
                (collectCandidates sr.items seen
                  (MAX_RESULTS - collected.length)).1,
                c.id ∈ (collectCandidates sr.items seen
                  (MAX_RESULTS - collected.length)).2 := by
              intro c hc
              rcases List.mem_append.mp hc with hc | hc
              · exact hspec.2.2.1 _ (hsub c hc)
              · exact hspec.2.1 _ (happ_sub c hc)
            cases htok : sr.nextPageToken with
            | none =>
              rw [htok] at h
              injection h with h
              subst h
              exact hnd'
            | some t =>
              rw [htok] at h
              exact fetchLoop_nodup details rest _ _ out h hsub' hnd'


/-- C5: for every interaction trace, a successful discovery run returns at
most `MAX_RESULTS` records, with pairwise-distinct identifiers, even when
the search source repeats candidates across pages. -/
theorem fetcher_cap_and_distinct (env : FetchEnv)
    (out : List YouTubeChannel)
    (h : fetchYouTubeChannels env = .ok out) :
    out.length ≤ MAX_RESULTS ∧ (out.map YouTubeChannel.id).Nodup := by
  unfold fetchYouTubeChannels at h
  cases hl : fetchLoop env.details env.searchPages [] [] with
  | error m => rw [hl] at h; exact absurd h (by simp [Except.map])
  | ok collected =>
    rw [hl] at h
    simp only [Except.map] at h
    injection h with h
    subst h
    constructor
    · rw [List.length_take]; exact min_le_left _ _
    · have hnd := fetchLoop_nodup env.details env.searchPages [] []
        collected hl (by simp) (by simp)
      rw [List.map_take]
      exact List.Nodup.sublist (List.take_sublist _ _) hnd

/-- A trace whose second search page repeats the candidates of the first
page before introducing a new one. -/
def dupEnv : FetchEnv :=
  { searchPages :=
      [.ok ⟨[⟨some "a"⟩, ⟨some "b"⟩], some "t1"⟩,
       .ok ⟨[⟨some "b"⟩, ⟨some "a"⟩, ⟨some "c"⟩], none⟩]
    details := fun ids => .ok (ids.map (fun i =>
      ⟨some i, ⟨some ("t" ++ i), none, none, none, none, none⟩,
       ⟨false, .num 1, .num 2, .num 3⟩, none⟩)) }

/-- The discovery output on `dupEnv`: each id exactly once, in first-seen
order. -/
def dupOut : List YouTubeChannel :=
  [⟨"a", "ta", none, none, none, some 1, some 2, some 3, none⟩,
   ⟨"b", "tb", none, none, none, some 1, some 2, some 3, none⟩,
   ⟨"c", "tc", none, none, none, some 1, some 2, some 3, none⟩]

theorem fetcher_cap_and_distinct_witness :
    dupOut.length ≤ MAX_RESULTS ∧ (dupOut.map YouTubeChannel.id).Nodup :=
  fetcher_cap_and_distinct dupEnv dupOut rfl

/-- Inversion of an accepted parameter validation. -/
theorem validateBounds_inv (mi ma : ParamInput) (mn mx : Nat)
    (hv : validateBounds mi ma = some (mn, mx)) :
    ∃ mx0, parseBound mi 0 = .ok mn
      ∧ parseBound ma MAX_ALLOWED_SUBSCRIBERS = .ok mx0
      ∧ ¬(MAX_ALLOWED_SUBSCRIBERS < mn)
      ∧ mx = (if MAX_ALLOWED_SUBSCRIBERS < mx0 then MAX_ALLOWED_SUBSCRIBERS
              else mx0)
      ∧ ¬(mx < mn) := by
  unfold validateBounds at hv
  cases h1 : parseBound mi 0 with
  | error m => rw [h1] at hv; simp at hv
  | ok mn' =>
    rw [h1] at hv
    cases h2 : parseBound ma MAX_ALLOWED_SUBSCRIBERS with
    | error m => rw [h2] at hv; simp at hv
    | ok mx0 =>
      rw [h2] at hv
      dsimp only at hv
      by_cases h3 : MAX_ALLOWED_SUBSCRIBERS < mn'
      · rw [if_pos h3] at hv; simp at hv
      · rw [if_neg h3] at hv
        by_cases h4 : (if MAX_ALLOWED_SUBSCRIBERS < mx0 then
            MAX_ALLOWED_SUBSCRIBERS else mx0) < mn'
        · rw [if_pos h4] at hv; simp at hv
        · rw [if_neg h4] at hv
          injection hv with hv
          rw [Prod.mk.injEq] at hv
          obtain ⟨h5, h6⟩ := hv
          subst h5
          subst h6
          exact ⟨mx0, rfl, rfl, h3, rfl, h4⟩

/-- A failing discovery run is a failing pagination loop. -/
theorem fetchYouTubeChannels_error (env : FetchEnv) (m : String)
    (h : fetchYouTubeChannels env = .error m) :
    fetchLoop env.details env.searchPages [] [] = .error m := by
  unfold fetchYouTubeChannels at h
  cases hl : fetchLoop env.details env.searchPages [] [] with
  | error mm => rw [hl] at h; simp only [Except.map] at h; injection h with h; rw [h]
  | ok c => rw [hl] at h; simp [Except.map] at h

/-- Every error the pagination loop raises carries an upstream HTTP status
and the upstream response body, in one of the two thrown-message shapes. -/
theorem fetchLoop_error_shape
    (details : List String → HttpResult (List DetailItem)) :
    ∀ (pages : List (HttpResult SearchResponse))
      (collected : List YouTubeChannel) (seen : List String) (m : String),
      fetchLoop details pages collected seen = .error m →
      (∃ (s : Nat) (b : String),
        m = "YouTube search API error: " ++ toString s ++ " " ++ b)
      ∨ (∃ (s : Nat) (b : String),
        m = "YouTube channels API error: " ++ toString s ++ " " ++ b)
  | [], collected, seen, m, h => by simp [fetchLoop] at h
  | page :: rest, collected, seen, m, h => by
    simp only [fetchLoop] at h
    by_cases hlen : MAX_RESULTS ≤ collected.length
    · rw [if_pos hlen] at h; exact absurd h (by simp)
    · rw [if_neg hlen] at h
      cases page with
      | err s b => injection h with h; exact Or.inl ⟨s, b, h.symm⟩
      | ok sr =>
        dsimp only at h
        by_cases hemp : (collectCandidates sr.items seen
            (MAX_RESULTS - collected.length)).1.isEmpty = true
        · rw [if_pos hemp] at h
          cases htok : sr.nextPageToken with
          | none => rw [htok] at h; exact absurd h (by simp)
          | some t =>
            rw [htok] at h
            exact fetchLoop_error_shape details rest _ _ m h
        · rw [if_neg hemp] at h
          cases hd : details (collectCandidates sr.items seen
              (MAX_RESULTS - collected.length)).1 with
          | err s b => rw [hd] at h; injection h with h; exact Or.inr ⟨s, b, h.symm⟩
          | ok items =>
            rw [hd] at h
            dsimp only at h
            cases htok : sr.nextPageToken with
            | none => rw [htok] at h; exact absurd h (by simp)
            | some t =>
              rw [htok] at h
              exact fetchLoop_error_shape details rest _ _ m h


/-- A refresh environment whose first external search call fails with
HTTP 403 and body `quotaExceeded`; everything else is healthy. -/
def upstreamFailEnv : PostEnv :=
  { youtubeApiKeyPresent := true
    supabaseConfigured := true
    fetchEnv := { searchPages := [.err 403 "quotaExceeded"]
                  details := fun _ => .ok [] }
    channelsUpsertError := none
    statsUpsertError := none
    readError := none
    store := ⟨[], []⟩ }

/-- C2 counterexample: when the external search call fails, the refresh
endpoint responds with status 500 — not 502 — because the fetcher throws a
plain error that POST's catch-all maps to a 500. -/
theorem refresh_upstream_not_502_cex :
    (POST upstreamFailEnv .absent .absent .absent).1
      = .err 500 "YouTube search API error: 403 quotaExceeded"
    ∧ responseStatus (POST upstreamFailEnv .absent .absent .absent).1
        ≠ 502 := by
  constructor
  · rfl
  · decide

/-- C2 amended: on an accepted, fully configured refresh whose external
search or details call fails, the endpoint responds with status 500 (not
502), and the message carries the upstream HTTP status and upstream
response body. -/
theorem refresh_upstream_error_500 (env : PostEnv)
    (mi ma pi : ParamInput) (mn mx : Nat) (m : String)
    (hv : validateBounds mi ma = some (mn, mx))
    (hk : env.youtubeApiKeyPresent = true)
    (hs : env.supabaseConfigured = true)
    (hf : fetchYouTubeChannels env.fetchEnv = .error m) :
    (POST env mi ma pi).1 = .err 500 m
    ∧ ((∃ (s : Nat) (b : String),
          m = "YouTube search API error: " ++ toString s ++ " " ++ b)
       ∨ (∃ (s : Nat) (b : String),
          m = "YouTube channels API error: " ++ toString s ++ " " ++ b)) := by
  obtain ⟨mx0, h1, h2, h3, h4, h5⟩ := validateBounds_inv mi ma mn mx hv
  constructor
  · simp only [POST, h1, h2]
    rw [if_neg h3, ← h4, if_neg h5, hk, hs]
    simp only [Bool.not_true]
    rw [if_neg (by simp), if_neg (by simp), hf]
  · exact fetchLoop_error_shape env.fetchEnv.details env.fetchEnv.searchPages
      [] [] m (fetchYouTubeChannels_error env.fetchEnv m hf)

theorem refresh_upstream_error_500_witness :
    (POST upstreamFailEnv .absent .absent .absent).1
      = .err 500 "YouTube search API error: 403 quotaExceeded" :=
  (refresh_upstream_error_500 upstreamFailEnv .absent .absent .absent
    0 MAX_ALLOWED_SUBSCRIBERS "YouTube search API error: 403 quotaExceeded"
    rfl rfl rfl rfl).1


/-- C3: failure of either projection's upsert aborts the sync with a
storage-write failure (a 500 carrying the storage error message), and the
partial write is not rolled back: when the statistics upsert fails after
the identity upsert succeeded, the store keeps the newly upserted identity
rows while the statistics table is untouched. -/
theorem sync_failure_partial_write :
    (∀ (env : PostEnv) (mi ma pi : ParamInput) (mn mx : Nat)
       (chs : List YouTubeChannel) (m : String),
       validateBounds mi ma = some (mn, mx) →
       env.youtubeApiKeyPresent = true →
       env.supabaseConfigured = true →
       fetchYouTubeChannels env.fetchEnv = .ok chs →
       chs ≠ [] →
       env.channelsUpsertError = some m →
       POST env mi ma pi = (.err 500 m, env.store))
    ∧ (∀ (env : PostEnv) (mi ma pi : ParamInput) (mn mx : Nat)
       (chs : List YouTubeChannel) (m : String),
       validateBounds mi ma = some (mn, mx) →
       env.youtubeApiKeyPresent = true →
       env.supabaseConfigured = true →
       fetchYouTubeChannels env.fetchEnv = .ok chs →
       chs ≠ [] →
       env.channelsUpsertError = none →
       env.statsUpsertError = some m →
       POST env mi ma pi =
         (.err 500 m,
          { channels := upsertChannels env.store.channels (channelRows chs)
            channel_stats := env.store.channel_stats })) := by
  constructor
  · intro env mi ma pi mn mx chs m hv hk hs hf hne hce
    obtain ⟨mx0, a1, a2, a3, a4, a5⟩ := validateBounds_inv mi ma mn mx hv
    simp only [POST, a1, a2]
    rw [if_neg a3, ← a4, if_neg a5, hk, hs]
    rw [if_neg (by simp), if_neg (by simp), hf]
    dsimp only
    have hch : channelRows chs ≠ [] := by
      simpa [channelRows] using hne
    rw [if_pos ⟨hch, by rw [hce]; rfl⟩, hce]
    rfl
  · intro env mi ma pi mn mx chs m hv hk hs hf hne hce hse
    obtain ⟨mx0, a1, a2, a3, a4, a5⟩ := validateBounds_inv mi ma mn mx hv
    simp only [POST, a1, a2]
    rw [if_neg a3, ← a4, if_neg a5, hk, hs]
    rw [if_neg (by simp), if_neg (by simp), hf]
    dsimp only
    have hch : channelRows chs ≠ [] := by
      simpa [channelRows] using hne
    have hst : statsRows chs ≠ [] := by
      simpa [statsRows] using hne
    rw [if_neg (by rw [hce]; simp)]
    rw [if_pos ⟨hst, by rw [hse]; rfl⟩, hse]
    rw [if_pos hch]
    rfl

/-- A refresh environment that discovers one channel and whose statistics
upsert fails. -/
def syncFailEnv : PostEnv :=
  { youtubeApiKeyPresent := true
    supabaseConfigured := true
    fetchEnv := { searchPages := [.ok ⟨[⟨some "a"⟩], none⟩]
                  details := fun ids => .ok (ids.map (fun i =>
                    ⟨some i, ⟨some ("t" ++ i), none, none, none, none, none⟩,
                     ⟨false, .num 1, .missing, .missing⟩, none⟩)) }
    channelsUpsertError := none
    statsUpsertError := some "stats upsert failed"
    readError := none
    store := ⟨[], []⟩ }

/-- The single channel `syncFailEnv` discovers. -/
def syncFailChs : List YouTubeChannel :=
  [⟨"a", "ta", none, none, none, some 1, none, none, none⟩]

theorem sync_failure_partial_write_witness :
    POST syncFailEnv .absent .absent .absent =
      (.err 500 "stats upsert failed",
       { channels := upsertChannels syncFailEnv.store.channels
           (channelRows syncFailChs)
         channel_stats := syncFailEnv.store.channel_stats }) :=
  sync_failure_partial_write.2 syncFailEnv .absent .absent .absent 0
    MAX_ALLOWED_SUBSCRIBERS syncFailChs "stats upsert failed" rfl rfl rfl rfl
    (by simp [syncFailChs]) rfl rfl

/-- C10: the store contents a refresh leaves behind are a function of the
environment (the fetched external responses and storage outcomes) only:
two accepted requests with different filter and page parameters write
identical rows. -/
theorem sync_writes_param_independent (env : PostEnv)
    (mi ma pi mi' ma' pi' : ParamInput) (mn mx mn' mx' : Nat)
    (h1 : validateBounds mi ma = some (mn, mx))
    (h2 : validateBounds mi' ma' = some (mn', mx')) :
    (POST env mi ma pi).2 = (POST env mi' ma' pi').2 := by
  obtain ⟨mx0, a1, a2, a3, a4, a5⟩ := validateBounds_inv mi ma mn mx h1
  obtain ⟨mx0', b1, b2, b3, b4, b5⟩ := validateBounds_inv mi' ma' mn' mx' h2
  simp only [POST, a1, a2, b1, b2]
  rw [if_neg a3, ← a4, if_neg a5, if_neg b3, ← b4, if_neg b5]
  by_cases hk : (!env.youtubeApiKeyPresent) = true
  · rw [if_pos hk, if_pos hk]
  · rw [if_neg hk, if_neg hk]
    by_cases hs : (!env.supabaseConfigured) = true
    · rw [if_pos hs, if_pos hs]
    · rw [if_neg hs, if_neg hs]
      cases hf : fetchYouTubeChannels env.fetchEnv with
      | error m => rfl
      | ok chs =>
        dsimp only
        by_cases c1 : channelRows chs ≠ [] ∧
            env.channelsUpsertError.isSome = true
        · rw [if_pos c1, if_pos c1]
        · rw [if_neg c1, if_neg c1]
          by_cases c2 : statsRows chs ≠ [] ∧
              env.statsUpsertError.isSome = true
          · rw [if_pos c2, if_pos c2]
          · rw [if_neg c2, if_neg c2]
            cases env.readError with
            | some m => rfl
            | none => rfl

/-- A healthy refresh environment that discovers and syncs one channel. -/
def writeEnv : PostEnv :=
  { youtubeApiKeyPresent := true
    supabaseConfigured := true
    fetchEnv := { searchPages := [.ok ⟨[⟨some "a"⟩], none⟩]
                  details := fun ids => .ok (ids.map (fun i =>
                    ⟨some i, ⟨some ("t" ++ i), none, none, none, none, none⟩,
                     ⟨false, .num 1, .missing, .missing⟩, none⟩)) }
    channelsUpsertError := none
    statsUpsertError := none
    readError := none
    store := ⟨[], []⟩ }

theorem sync_writes_param_independent_witness :
    (POST writeEnv (.numeric 5) (.numeric 20000) (.numeric 2)).2
      = (POST writeEnv .absent .absent .absent).2 :=
  sync_writes_param_independent writeEnv (.numeric 5) (.numeric 20000)
    (.numeric 2) .absent .absent .absent 5 10000 0 10000 rfl rfl

end VtuberDashboard
